import Mathlib

/-!
Verification of the PharmaGuard pharmacogenomic risk pipeline.

Shallow embedding of the core pipeline (VCF parsing, genotype analysis,
phenotype classification, risk lookup, orchestration) translated from the
Python sources under src/.  Python string operations are modelled by
executable functions over `List Char`; Python dicts by association lists
with replace-on-insert; Python floats by rationals.
-/

/- ───────────────────────── Python string primitives ───────────────────────── -/

/-- The character list of a string. -/
def chars (s : String) : List Char := s.data

/-- Rebuild a string from its character list. -/
def str (cs : List Char) : String := ⟨cs⟩

/-- Whitespace characters stripped by Python's `str.strip()`. -/
def isPySpace (c : Char) : Bool :=
  c = ' ' || c = '\t' || c = '\n' || c = '\r' || c = '\x0b' || c = '\x0c'

/-- Python `s.strip()`. -/
def pyStrip (s : String) : String :=
  str (((chars s).dropWhile isPySpace).reverse.dropWhile isPySpace).reverse

/-- Auxiliary splitter: accumulates the current field (reversed) while walking
the character list. -/
def splitCharAux (c : Char) : List Char → List Char → List String
  | [], acc => [str acc.reverse]
  | x :: xs, acc =>
    if x = c then str acc.reverse :: splitCharAux c xs [] else splitCharAux c xs (x :: acc)

/-- Python `s.split(sep)` for a one-character separator (`"".split(sep) = [""]`). -/
def pySplit (c : Char) (s : String) : List String := splitCharAux c (chars s) []

/-- Python `s.split(sep, 1)` restricted to the case where the separator occurs:
returns the part before the first occurrence and the (unsplit) rest. -/
def splitOnceChar (c : Char) : List Char → List Char → Option (List Char × List Char)
  | [], _ => none
  | x :: xs, acc => if x = c then some (acc.reverse, xs) else splitOnceChar c xs (x :: acc)

/-- Python `old in s` for a one-character `old`. -/
def pyContainsChar (c : Char) (s : String) : Bool := (chars s).contains c

/-- Python `s.replace(old, new)` for one-character `old`/`new`. -/
def pyReplaceChar (a b : Char) (s : String) : String :=
  str ((chars s).map (fun x => if x = a then b else x))

/-- Python `s.startswith(p)`. -/
def pyStartsWith (p s : String) : Bool := (chars p).isPrefixOf (chars s)

/-- ASCII upper-casing of one character, as Python `str.upper()` does on ASCII. -/
def pyUpperChar (c : Char) : Char :=
  if 'a' ≤ c && c ≤ 'z' then Char.ofNat (c.toNat - 32) else c

/-- Python `s.upper()` (ASCII fragment; the repository's data is ASCII). -/
def pyUpper (s : String) : String := str ((chars s).map pyUpperChar)

/-- Python `int(s)`: strip surrounding whitespace, optional sign, digits.
Numeric-literal underscores are not modelled. -/
def pyParseInt (s : String) : Option Int :=
  let t := chars (pyStrip s)
  let core : List Char → Option Nat := fun ds =>
    if ds ≠ [] && ds.all Char.isDigit
    then some (ds.foldl (fun n d => 10 * n + (d.toNat - 48)) 0)
    else none
  match t with
  | '-' :: rest => (core rest).map (fun n => -(n : Int))
  | '+' :: rest => (core rest).map (fun n => (n : Int))
  | _ => (core t).map (fun n => (n : Int))

/-- Python dict insertion `m[k] = v`: replace the value in place when the key
exists (insertion order is kept), append otherwise. -/
def pyInsert (m : List (String × α)) (k : String) (v : α) : List (String × α) :=
  if m.any (fun p => p.1 = k) then m.map (fun p => if p.1 = k then (k, v) else p)
  else m ++ [(k, v)]

/- ───────────────────────── Knowledge base (pgx_knowledge.py) ───────────────────────── -/

/-- One entry of the variant database: gene, star allele, functional effect. -/
structure KBEntry where
  gene : String
  star : String
  effect : String
deriving Repr, DecidableEq

/-- PGX_VARIANTS: rsID → gene, star allele, functional effect. -/
def PGX_VARIANTS : List (String × KBEntry) := [
  ("rs3892097",  ⟨"CYP2D6",  "*4",    "loss_of_function"⟩),
  ("rs1065852",  ⟨"CYP2D6",  "*10",   "reduced_function"⟩),
  ("rs5030655",  ⟨"CYP2D6",  "*6",    "loss_of_function"⟩),
  ("rs16947",    ⟨"CYP2D6",  "*2",    "normal_function"⟩),
  ("rs1135840",  ⟨"CYP2D6",  "*2",    "normal_function"⟩),
  ("rs28371706", ⟨"CYP2D6",  "*41",   "reduced_function"⟩),
  ("rs769258",   ⟨"CYP2D6",  "*17",   "reduced_function"⟩),
  ("rs4244285",  ⟨"CYP2C19", "*2",    "loss_of_function"⟩),
  ("rs4986893",  ⟨"CYP2C19", "*3",    "loss_of_function"⟩),
  ("rs12248560", ⟨"CYP2C19", "*17",   "increased_function"⟩),
  ("rs28399504", ⟨"CYP2C19", "*4",    "loss_of_function"⟩),
  ("rs41291556", ⟨"CYP2C19", "*8",    "loss_of_function"⟩),
  ("rs1799853",  ⟨"CYP2C9",  "*2",    "reduced_function"⟩),
  ("rs1057910",  ⟨"CYP2C9",  "*3",    "loss_of_function"⟩),
  ("rs28371686", ⟨"CYP2C9",  "*5",    "loss_of_function"⟩),
  ("rs9332131",  ⟨"CYP2C9",  "*6",    "loss_of_function"⟩),
  ("rs7900194",  ⟨"CYP2C9",  "*8",    "reduced_function"⟩),
  ("rs4149056",  ⟨"SLCO1B1", "*5",    "reduced_function"⟩),
  ("rs2306283",  ⟨"SLCO1B1", "*1B",   "normal_function"⟩),
  ("rs11045852", ⟨"SLCO1B1", "*14",   "reduced_function"⟩),
  ("rs1800460",  ⟨"TPMT",    "*3B",   "loss_of_function"⟩),
  ("rs1142345",  ⟨"TPMT",    "*3C",   "loss_of_function"⟩),
  ("rs1800462",  ⟨"TPMT",    "*2",    "loss_of_function"⟩),
  ("rs1800584",  ⟨"TPMT",    "*4",    "loss_of_function"⟩),
  ("rs3918290",  ⟨"DPYD",    "*2A",   "loss_of_function"⟩),
  ("rs55886062", ⟨"DPYD",    "*13",   "loss_of_function"⟩),
  ("rs67376798", ⟨"DPYD",    "HapB3", "reduced_function"⟩),
  ("rs75017182", ⟨"DPYD",    "HapB3", "reduced_function"⟩)]

/-- KNOWN_PGX_RSIDS: rsIDs of the variant database. -/
def KNOWN_PGX_RSIDS : List String := PGX_VARIANTS.map (·.1)

/-- DRUG_GENE_MAP: drug → primary gene. -/
def DRUG_GENE_MAP : List (String × String) := [
  ("CODEINE",      "CYP2D6"),
  ("WARFARIN",     "CYP2C9"),
  ("CLOPIDOGREL",  "CYP2C19"),
  ("SIMVASTATIN",  "SLCO1B1"),
  ("AZATHIOPRINE", "TPMT"),
  ("FLUOROURACIL", "DPYD")]

/-- One phenotype rule: optional thresholds over loss-of-function /
reduced-function / increased-function counts, or a default rule. -/
structure PhenotypeRule where
  min_lof : Option Nat := none
  min_reduced : Option Nat := none
  min_increased : Option Nat := none
  isDefault : Bool := false
  phenotype : String
deriving Repr, DecidableEq

/-- PHENOTYPE_RULES: gene → ordered rule list. -/
def PHENOTYPE_RULES : List (String × List PhenotypeRule) := [
  ("CYP2D6", [
    { min_lof := some 2,                          phenotype := "PM" },
    { min_lof := some 1, min_reduced := some 1,   phenotype := "IM" },
    { min_lof := some 1,                          phenotype := "IM" },
    { min_reduced := some 2,                      phenotype := "IM" },
    { min_reduced := some 1,                      phenotype := "IM" },
    { min_increased := some 1,                    phenotype := "RM" },
    { isDefault := true,                          phenotype := "NM" }]),
  ("CYP2C19", [
    { min_lof := some 2,                          phenotype := "PM" },
    { min_lof := some 1, min_reduced := some 1,   phenotype := "IM" },
    { min_lof := some 1,                          phenotype := "IM" },
    { min_increased := some 2,                    phenotype := "URM" },
    { min_increased := some 1,                    phenotype := "RM" },
    { isDefault := true,                          phenotype := "NM" }]),
  ("CYP2C9", [
    { min_lof := some 2,                          phenotype := "PM" },
    { min_lof := some 1, min_reduced := some 1,   phenotype := "IM" },
    { min_lof := some 1,                          phenotype := "IM" },
    { min_reduced := some 2,                      phenotype := "IM" },
    { min_reduced := some 1,                      phenotype := "IM" },
    { isDefault := true,                          phenotype := "NM" }]),
  ("SLCO1B1", [
    { min_reduced := some 2,                      phenotype := "PM" },
    { min_lof := some 1,                          phenotype := "PM" },
    { min_reduced := some 1,                      phenotype := "IM" },
    { isDefault := true,                          phenotype := "NM" }]),
  ("TPMT", [
    { min_lof := some 2,                          phenotype := "PM" },
    { min_lof := some 1,                          phenotype := "IM" },
    { min_reduced := some 1,                      phenotype := "IM" },
    { isDefault := true,                          phenotype := "NM" }]),
  ("DPYD", [
    { min_lof := some 2,                          phenotype := "PM" },
    { min_lof := some 1,                          phenotype := "IM" },
    { min_reduced := some 2,                      phenotype := "IM" },
    { min_reduced := some 1,                      phenotype := "IM" },
    { isDefault := true,                          phenotype := "NM" }])]

/- ───────────────────────── VCF parser (vcf_parser.py) ───────────────────────── -/

/-- A value of the VCF INFO dictionary: a string for a `key=value` token, or
the flag marker for a bare token (Python stores the boolean `True` there). -/
inductive InfoVal where
  | str (s : String)
  | flag
deriving Repr, DecidableEq

/-- Python `f"...{v}..."` stringification of an INFO value (`True` for a flag). -/
def infoValText : InfoVal → String
  | .str s => s
  | .flag => "True"

/-- Python truthiness of an optional INFO value. -/
def infoTruthy : Option InfoVal → Bool
  | some (.str s) => s ≠ ""
  | some .flag => true
  | none => false

/-- Python `a or b` on two optional INFO values: the first when truthy,
otherwise the second. -/
def pyOrInfo (a b : Option InfoVal) : Option InfoVal := if infoTruthy a then a else b

/-- The string stored for a tag read by `info.get(...) or info.get(...)`.
A bare flag is the Python boolean `True`: for the gene tag no such record
ever escapes parse_vcf_content, because the pharmacogenomic-relevance
comprehension raises first (see is_pgx_relevant), so the value here is
unobservable; for the star tag the boolean flows through later f-strings
exactly like the string form used here. -/
def infoValField : Option InfoVal → Option String
  | some (.str s) => some s
  | some .flag => some "True"
  | none => none

/-- The gene tag value exactly as the source reads it from the INFO dict:
the first truthy of the GENE and Gene values (a string, the bare-flag
boolean, or null). -/
def gene_tag_raw (info : List (String × InfoVal)) : Option InfoVal :=
  pyOrInfo (info.lookup "GENE") (info.lookup "Gene")

/-- VCFVariant: one parsed data row. -/
structure VCFVariant where
  chrom : String
  pos : Int
  rsid : Option String
  ref : String
  alt : String
  qual : String
  filter_status : String
  gene : Option String
  star_allele : Option String
  genotype : Option String
  raw_info : List (String × InfoVal)
deriving Repr, DecidableEq

/-- VCFParseResult: parse output plus diagnostics. -/
structure VCFParseResult where
  success : Bool
  variants : List VCFVariant
  total_records : Nat
  pharmacogenomic_variants : Nat
  errors : List String
  metadata : List (String × String)
deriving Repr, DecidableEq

/-- SUPPORTED_GENES of the parser module. -/
def SUPPORTED_GENES : List String := ["CYP2D6", "CYP2C19", "CYP2C9", "SLCO1B1", "TPMT", "DPYD"]

/-- parse_info_field: semicolon-separated `key=value` or bare-flag tokens. -/
def parse_info_field (info_str : String) : List (String × InfoVal) :=
  (pySplit ';' info_str).foldl
    (fun info item =>
      match splitOnceChar '=' (chars item) [] with
      | some (k, v) => pyInsert info (pyStrip (str k)) (.str (pyStrip (str v)))
      | none => pyInsert info (pyStrip item) .flag)
    []

/-- parse_genotype: extract GT from the colon-delimited FORMAT/SAMPLE columns. -/
def parse_genotype (format_str sample_str : String) : Option String :=
  let keys := pySplit ':' format_str
  let values := pySplit ':' sample_str
  let fmt_map := (keys.zip values).foldl (fun m kv => pyInsert m kv.1 kv.2) []
  (fmt_map.lookup "GT")

/-- rsID extraction of parse_vcf_content (lines 122-127): the ID column when
truthy and starting with "rs", else synthesized from the INFO key "RS". -/
def extract_rsid (id_col : String) (info : List (String × InfoVal)) : Option String :=
  if id_col ≠ "" && pyStartsWith "rs" id_col then some id_col
  else
    match info.lookup "RS" with
    | some v => some ("rs" ++ infoValText v)
    | none => none

/-- The skip-error message for a short row. -/
def malformedMsg (total : Nat) : String :=
  "Line " ++ toString total ++ ": Malformed record (< 8 columns) — skipped"

/-- The skip-error message for an unparsable POS field. -/
def invalidPosMsg (total : Nat) (pos_str : String) : String :=
  "Line " ++ toString total ++ ": Invalid POS " ++ pos_str ++ " — skipped"

/-- The body of the parse loop for one data line (the stripped line is known
to be a data line): a skip-error message or a parsed record. -/
def parse_data_fields (line : String) (total : Nat) : String ⊕ VCFVariant :=
  let parts := pySplit '\t' line
  if parts.length < 8 then .inl (malformedMsg total)
  else
    match pyParseInt (parts.getD 1 "") with
    | none => .inl (invalidPosMsg total (parts.getD 1 ""))
    | some pos =>
      let info := parse_info_field (parts.getD 7 "")
      .inr {
        chrom := parts.getD 0 "",
        pos := pos,
        rsid := extract_rsid (parts.getD 2 "") info,
        ref := parts.getD 3 "",
        alt := parts.getD 4 "",
        qual := parts.getD 5 "",
        filter_status := parts.getD 6 "",
        gene := infoValField (gene_tag_raw info),
        star_allele := infoValField (pyOrInfo (info.lookup "STAR") (info.lookup "Star")),
        genotype := if parts.length ≥ 10 then parse_genotype (parts.getD 8 "") (parts.getD 9 "") else none,
        raw_info := info }

/-- Intermediate state of the parse loop. -/
structure ParseState where
  variants : List VCFVariant
  errors : List String
  metadata : List (String × String)
  total_records : Nat
deriving Repr, DecidableEq

/-- One iteration of the parse loop of parse_vcf_content. -/
def parse_line (st : ParseState) (rawLine : String) : ParseState :=
  let line := pyStrip rawLine
  if pyStartsWith "##" line then
    if pyContainsChar '=' line then
      match splitOnceChar '=' ((chars line).drop 2) [] with
      | some (k, v) => { st with metadata := pyInsert st.metadata (str k) (str v) }
      | none => st
    else st
  else if pyStartsWith "#CHROM" line then st
  else if line = "" then st
  else
    let total := st.total_records + 1
    match parse_data_fields line total with
    | .inl e => { st with total_records := total, errors := st.errors ++ [e] }
    | .inr v => { st with total_records := total, variants := st.variants ++ [v] }

/-- Pharmacogenomic-relevance test of the pg_variants comprehension: the gene
tag against SUPPORTED_GENES, or the rsID against the known-variant set. The
source calls upper() on the stored gene tag, so a bare-flag tag (the boolean
True) raises AttributeError there, modelled as none; the tag is recovered
from raw_info, the very INFO dict the gene field was read from. -/
def is_pgx_relevant (v : VCFVariant) : Option Bool :=
  match gene_tag_raw v.raw_info with
  | some .flag => none
  | some (.str g) =>
    if g ≠ "" && SUPPORTED_GENES.contains (pyUpper g) then some true
    else
      some (match v.rsid with
            | some r => r ≠ "" && KNOWN_PGX_RSIDS.contains r
            | none => false)
  | none =>
    some (match v.rsid with
          | some r => r ≠ "" && KNOWN_PGX_RSIDS.contains r
          | none => false)

/-- The pg_variants comprehension of parse_vcf_content: the number of relevant
records, or none when the comprehension raises on a bare-flag gene tag. -/
def count_pgx_relevant : List VCFVariant → Option Nat
  | [] => some 0
  | v :: vs =>
    match is_pgx_relevant v with
    | none => none
    | some b =>
      match count_pgx_relevant vs with
      | none => none
      | some n => some (if b then n + 1 else n)

/-- parse_vcf_content: the main VCF parsing function; none models the
uncaught AttributeError the pg_variants comprehension raises when a record
carries a bare-flag gene tag. -/
def parse_vcf_content (content : String) : Option VCFParseResult :=
  let lines := pySplit '\n' (pyStrip content)
  let st := lines.foldl parse_line ⟨[], [], [], 0⟩
  match count_pgx_relevant st.variants with
  | none => none
  | some n =>
    some { success := decide (st.errors.length < st.total_records),
           variants := st.variants,
           total_records := st.total_records,
           pharmacogenomic_variants := n,
           errors := st.errors,
           metadata := st.metadata }

/-- A stripped input line that the parse loop counts as a data line (not
metadata, not the column header, not blank). -/
def is_data_line (rawLine : String) : Bool :=
  let line := pyStrip rawLine
  !pyStartsWith "##" line && !pyStartsWith "#CHROM" line && line ≠ ""

/-- A data line is well formed when it has at least 8 tab-separated fields and
an integer POS field. -/
def well_formed_line (rawLine : String) : Bool :=
  let parts := pySplit '\t' (pyStrip rawLine)
  decide (parts.length ≥ 8) && (pyParseInt (parts.getD 1 "")).isSome

/- ───────────────────────── Genotype analyzer (pgx_analyzer.py) ───────────────────────── -/

/-- DetectedVariant: a record cross-referenced against the knowledge base. -/
structure DetectedVariant where
  rsid : String
  gene : String
  star_allele : String
  effect : String
  chrom : String
  pos : Int
  ref : String
  alt : String
  genotype : Option String
deriving Repr, DecidableEq

/-- GenotypeResult: the per-gene analysis outcome. -/
structure GenotypeResult where
  gene : String
  detected_variants : List DetectedVariant
  allele1 : String
  allele2 : String
  diplotype : String
  phenotype : String
  activity_score : ℚ
deriving Repr, DecidableEq

/-- find_gene_for_drug: DRUG_GENE_MAP lookup on the upper-cased drug name. -/
def find_gene_for_drug (drug : String) : Option String :=
  DRUG_GENE_MAP.lookup (pyUpper drug)

/-- is_variant_present: true unless the genotype shows only reference or
missing alleles; a null (or empty) genotype is treated as present. -/
def is_variant_present (genotype : Option String) : Bool :=
  match genotype with
  | none => true
  | some g =>
    if g = "" then true
    else
      let gt := pyReplaceChar '|' '/' g
      let alleles := pySplit '/' gt
      alleles.any (fun a => !(a == "0" || a == "."))

/-- One iteration of the detect_variants loop, carrying the detected list and
the seen-rsID set. -/
def detect_step (gene : String) (acc : List DetectedVariant × List String)
    (v : VCFVariant) : List DetectedVariant × List String :=
  let (detected, seen) := acc
  if !is_variant_present v.genotype then acc
  else
    match v.rsid with
    | none => acc
    | some r =>
      if r = "" then acc
      else
        match PGX_VARIANTS.lookup r with
        | some kb =>
          if kb.gene = gene && !seen.contains r then
            (detected ++ [{ rsid := r, gene := gene, star_allele := kb.star,
                            effect := kb.effect, chrom := v.chrom, pos := v.pos,
                            ref := v.ref, alt := v.alt, genotype := v.genotype }],
             seen ++ [r])
          else acc
        | none =>
          if (match v.gene with | some g => g ≠ "" && pyUpper g = gene | none => false)
              && !seen.contains r then
            (detected ++ [{ rsid := r, gene := gene,
                            star_allele := (match v.star_allele with
                                            | some s => if s ≠ "" then s else "Unknown"
                                            | none => "Unknown"),
                            effect := "unknown", chrom := v.chrom, pos := v.pos,
                            ref := v.ref, alt := v.alt, genotype := v.genotype }],
             seen ++ [r])
          else acc

/-- detect_variants: cross-reference the parsed records against the knowledge
base for one gene, skipping records the patient does not carry. -/
def detect_variants (vcf_variants : List VCFVariant) (gene : String) :
    List DetectedVariant :=
  (vcf_variants.foldl (detect_step gene) ([], [])).1

/-- Whether one phenotype rule matches the given effect counts: every
threshold the rule specifies must be met, and at least one must be present. -/
def rule_matches (nlof nred ninc : Nat) (r : PhenotypeRule) : Bool :=
  let checks :=
    (if r.min_lof.isSome then [decide (nlof ≥ r.min_lof.getD 0)] else [])
    ++ (if r.min_reduced.isSome then [decide (nred ≥ r.min_reduced.getD 0)] else [])
    ++ (if r.min_increased.isSome then [decide (ninc ≥ r.min_increased.getD 0)] else [])
  !checks.isEmpty && checks.all id

/-- First-match evaluation of an ordered rule list; a default rule always
matches; "Unknown" when no rule matches. -/
def eval_rules (nlof nred ninc : Nat) : List PhenotypeRule → String
  | [] => "Unknown"
  | r :: rest =>
    if r.isDefault then r.phenotype
    else if rule_matches nlof nred ninc r then r.phenotype
    else eval_rules nlof nred ninc rest

/-- The activity_map dictionary of assign_phenotype. -/
def activity_map : List (String × ℚ) :=
  [("loss_of_function", 0), ("reduced_function", 1/2),
   ("normal_function", 1), ("increased_function", 2)]

/-- Round-half-to-even of a rational to an integer (Python `round`). -/
def pyRoundHalfEven (q : ℚ) : Int :=
  let f := ⌊q⌋
  let r := q - f
  if r < 1/2 then f else if 1/2 < r then f + 1 else if f % 2 = 0 then f else f + 1

/-- Half-even rounding of an exact rational to two decimal places. Python
round(x, 2) applies exactly this to the exact value of the binary64 number x
(the float the source then stores is the binary64 nearest the result and
prints identically; the scores here are modelled by the decimal value). -/
def round2 (q : ℚ) : ℚ := (pyRoundHalfEven (q * 100) : ℚ) / 100

/-- Fueled floor of the base-2 logarithm of a natural number. -/
def natLog2 : Nat → Nat → Nat
  | 0, _ => 0
  | fuel + 1, n => if n ≥ 2 then natLog2 fuel (n / 2) + 1 else 0

/-- Floor of the base-2 logarithm (0 at 0). -/
def ilog2 (n : Nat) : Nat := natLog2 n n

/-- Round-half-to-even division of naturals. -/
def halfEvenDivNat (a b : Nat) : Nat :=
  let f := a / b
  let r := a % b
  if 2 * r < b then f else if b < 2 * r then f + 1 else if f % 2 = 0 then f else f + 1

/-- Whether 2 to the integer power e is at most a / b (a, b positive),
decided on integers. -/
def pow2LE (a b : Nat) (e : Int) : Bool :=
  if 0 ≤ e then decide (2 ^ e.toNat * b ≤ a) else decide (b ≤ a * 2 ^ (-e).toNat)

/-- The binade exponent of the positive rational a / b: the largest e with
2 to the e at most a / b. -/
def binadeExp (a b : Nat) : Int :=
  let e0 : Int := (ilog2 a : Int) - (ilog2 b : Int)
  if pow2LE a b (e0 + 1) then e0 + 1 else if pow2LE a b e0 then e0 else e0 - 1

/-- The IEEE binary64 double nearest to a rational: round to the unit in the
last place of the binade (53-bit significand, subnormals below 2 to the
-1022), ties to even. Zero is returned unchanged, negative inputs (which the
score pipeline never produces) likewise; the huge-exponent overflow to
infinity is outside the range of every value met here and is not modelled. -/
def nearestFloat (q : ℚ) : ℚ :=
  if q ≤ 0 then q
  else
    let a := q.num.toNat
    let b := q.den
    let p : Int := max (binadeExp a b - 52) (-1074)
    if 0 ≤ p then ((halfEvenDivNat a (b * 2 ^ p.toNat)) : ℚ) * 2 ^ p.toNat
    else ((halfEvenDivNat (a * 2 ^ (-p).toNat) b) : ℚ) / 2 ^ (-p).toNat

/-- Binary64 addition: the double nearest the exact sum (Python float +). -/
def floatAdd (x y : ℚ) : ℚ := nearestFloat (x + y)

/-- Binary64 division: the double nearest the exact quotient (Python float /;
the divisor here is a record count converted to its double, which is exact
for every realistic length and modelled by nearestFloat throughout). -/
def floatDiv (x y : ℚ) : ℚ := nearestFloat (x / y)

/-- assign_phenotype: phenotype from the ordered rules, diplotype from the
first two named alleles, activity score from averaged effect weights. -/
def assign_phenotype (gene : String) (detected : List DetectedVariant) :
    GenotypeResult :=
  let lof := detected.filter (fun d => d.effect = "loss_of_function")
  let reduced := detected.filter (fun d => d.effect = "reduced_function")
  let increased := detected.filter (fun d => d.effect = "increased_function")
  let rules := (PHENOTYPE_RULES.lookup gene).getD [{ isDefault := true, phenotype := "Unknown" }]
  let phenotype := eval_rules lof.length reduced.length increased.length rules
  let all_alleles :=
    (detected.filter (fun d => d.star_allele ≠ "" && d.star_allele ≠ "Unknown")).map
      (·.star_allele)
  let ab : String × String :=
    match all_alleles with
    | [] => ("*1", "*1")
    | [a] => ("*1", a)
    | a :: b :: _ => (a, b)
  let diplotype := ab.1 ++ "/" ++ ab.2
  let activity_score : ℚ :=
    if detected.isEmpty then 1
    else
      let scores := detected.map (fun d => (activity_map.lookup d.effect).getD 1)
      round2 (floatDiv (scores.foldl floatAdd 0) (nearestFloat (detected.length : ℚ)))
  { gene := gene, detected_variants := detected, allele1 := ab.1, allele2 := ab.2,
    diplotype := diplotype, phenotype := phenotype, activity_score := activity_score }

/-- analyze_genotype: full genotype analysis for a single gene. -/
def analyze_genotype (vcf_variants : List VCFVariant) (gene : String) :
    GenotypeResult :=
  assign_phenotype gene (detect_variants vcf_variants gene)

/- ───────────────────────── Risk assessor (risk_assessor.py) ───────────────────────── -/

/-- RiskAssessment: the clinical risk/dosing record. -/
structure RiskAssessment where
  risk_label : String
  severity : String
  confidence_score : ℚ
  action : String
  dosing_guidance : String
  urgency : String
  cpic_recommendation : String
  cpic_level : String
deriving Repr, DecidableEq

/-- RISK_TABLE: drug → phenotype → clinical risk record. -/
def RISK_TABLE : List (String × List (String × RiskAssessment)) := [
  ("CODEINE", [
    ("PM", {
      risk_label := "Ineffective", severity := "moderate", confidence_score := 91/100,
      action := "Use alternative analgesic",
      dosing_guidance := "Codeine is a prodrug converted to morphine by CYP2D6. Poor metabolizers cannot perform this conversion. Select a non-opioid analgesic or tramadol with caution. Avoid codeine entirely.",
      urgency := "HIGH",
      cpic_recommendation := "Avoid codeine. Use alternative such as morphine (not tramadol) or a non-opioid analgesic.",
      cpic_level := "Strong" }),
    ("IM", {
      risk_label := "Adjust Dosage", severity := "low", confidence_score := 82/100,
      action := "Reduce dose or use alternative",
      dosing_guidance := "Intermediate metabolizers have reduced CYP2D6 activity. Codeine conversion to morphine is slower, leading to reduced efficacy. Consider dose adjustment or alternative analgesic.",
      urgency := "ROUTINE",
      cpic_recommendation := "Use label-recommended age- or weight-specific dosing. If no response, consider alternative analgesic.",
      cpic_level := "Moderate" }),
    ("NM", {
      risk_label := "Safe", severity := "none", confidence_score := 88/100,
      action := "Standard dosing",
      dosing_guidance := "Normal CYP2D6 activity. Standard codeine dosing is appropriate. Monitor for typical opioid side effects.",
      urgency := "ROUTINE",
      cpic_recommendation := "Use label-recommended dosing.",
      cpic_level := "Strong" }),
    ("RM", {
      risk_label := "Safe", severity := "low", confidence_score := 84/100,
      action := "Standard dosing with monitoring",
      dosing_guidance := "Rapid metabolizer. Slightly enhanced conversion. Standard dosing generally appropriate. Monitor analgesic response.",
      urgency := "ROUTINE",
      cpic_recommendation := "Use label-recommended dosing.",
      cpic_level := "Moderate" }),
    ("URM", {
      risk_label := "Toxic", severity := "critical", confidence_score := 96/100,
      action := "CONTRAINDICATED",
      dosing_guidance := "CONTRAINDICATED. Ultra-rapid metabolism produces excessive morphine causing life-threatening respiratory depression. Documented fatalities reported. Use non-opioid analgesic.",
      urgency := "IMMEDIATE",
      cpic_recommendation := "Avoid codeine. Risk of life-threatening or fatal respiratory depression.",
      cpic_level := "Strong" })]),
  ("WARFARIN", [
    ("PM", {
      risk_label := "Toxic", severity := "high", confidence_score := 94/100,
      action := "Significant dose reduction required",
      dosing_guidance := "Significantly reduced CYP2C9 metabolism. Warfarin clearance is markedly decreased. Start at 20-40% of standard dose. Frequent INR monitoring mandatory. Target INR range 2.0-3.0.",
      urgency := "HIGH",
      cpic_recommendation := "Use CPIC warfarin dosing algorithm incorporating CYP2C9 and VKORC1 genotype.",
      cpic_level := "Strong" }),
    ("IM", {
      risk_label := "Adjust Dosage", severity := "moderate", confidence_score := 89/100,
      action := "Reduce starting dose",
      dosing_guidance := "Reduced warfarin clearance. Initiate at lower dose. Weekly INR checks for first month. Use pharmacogenomics-based dosing calculator (e.g., warfarindosing.org).",
      urgency := "HIGH",
      cpic_recommendation := "Use CPIC warfarin dosing algorithm. Reduce starting dose by 15-30%.",
      cpic_level := "Strong" }),
    ("NM", {
      risk_label := "Safe", severity := "none", confidence_score := 88/100,
      action := "Standard dosing",
      dosing_guidance := "Normal warfarin metabolism expected. Use standard warfarin initiation protocol with routine INR monitoring.",
      urgency := "ROUTINE",
      cpic_recommendation := "Use standard warfarin dosing.",
      cpic_level := "Strong" })]),
  ("CLOPIDOGREL", [
    ("PM", {
      risk_label := "Ineffective", severity := "high", confidence_score := 93/100,
      action := "Use alternative antiplatelet",
      dosing_guidance := "Clopidogrel requires CYP2C19 for bioactivation. Poor metabolizers cannot generate active metabolite, leading to inadequate platelet inhibition and increased MACE risk. Switch to prasugrel or ticagrelor.",
      urgency := "HIGH",
      cpic_recommendation := "Use alternative antiplatelet therapy (prasugrel or ticagrelor) if no contraindication.",
      cpic_level := "Strong" }),
    ("IM", {
      risk_label := "Adjust Dosage", severity := "moderate", confidence_score := 87/100,
      action := "Consider alternative or increased monitoring",
      dosing_guidance := "Reduced clopidogrel activation. Clinical significance depends on indication. Consider prasugrel or ticagrelor for high-risk ACS patients.",
      urgency := "ROUTINE",
      cpic_recommendation := "Use alternative antiplatelet therapy if clinically indicated.",
      cpic_level := "Moderate" }),
    ("NM", {
      risk_label := "Safe", severity := "none", confidence_score := 90/100,
      action := "Standard dosing",
      dosing_guidance := "Normal clopidogrel activation. Standard dosing appropriate. 75mg daily per label.",
      urgency := "ROUTINE",
      cpic_recommendation := "Use label-recommended dosing.",
      cpic_level := "Strong" }),
    ("RM", {
      risk_label := "Safe", severity := "none", confidence_score := 86/100,
      action := "Standard dosing",
      dosing_guidance := "Rapid CYP2C19 metabolism. Enhanced clopidogrel activation. Standard dosing appropriate.",
      urgency := "ROUTINE",
      cpic_recommendation := "Use label-recommended dosing.",
      cpic_level := "Moderate" }),
    ("URM", {
      risk_label := "Safe", severity := "low", confidence_score := 83/100,
      action := "Standard dosing with monitoring",
      dosing_guidance := "Ultra-rapid metabolism. Monitor for enhanced antiplatelet effect and bleeding risk.",
      urgency := "ROUTINE",
      cpic_recommendation := "Use label-recommended dosing. Monitor for bleeding.",
      cpic_level := "Moderate" })]),
  ("SIMVASTATIN", [
    ("PM", {
      risk_label := "Toxic", severity := "high", confidence_score := 92/100,
      action := "Avoid simvastatin or use lowest dose",
      dosing_guidance := "Significantly increased simvastatin plasma levels due to reduced SLCO1B1-mediated hepatic uptake. High risk of myopathy and rhabdomyolysis. Use rosuvastatin, pravastatin, or fluvastatin as alternatives.",
      urgency := "HIGH",
      cpic_recommendation := "Avoid simvastatin 80mg. Consider lower-risk statin (rosuvastatin, pravastatin).",
      cpic_level := "Strong" }),
    ("IM", {
      risk_label := "Adjust Dosage", severity := "moderate", confidence_score := 85/100,
      action := "Use simvastatin ≤20mg or switch statin",
      dosing_guidance := "Moderately increased simvastatin exposure. Limit dose to ≤20mg or switch to rosuvastatin/pravastatin. Monitor CK levels periodically.",
      urgency := "ROUTINE",
      cpic_recommendation := "Prescribe simvastatin ≤20mg daily or use alternative statin.",
      cpic_level := "Strong" }),
    ("NM", {
      risk_label := "Safe", severity := "none", confidence_score := 87/100,
      action := "Standard dosing",
      dosing_guidance := "Normal SLCO1B1 function. Standard simvastatin dosing appropriate with routine hepatic and muscular monitoring.",
      urgency := "ROUTINE",
      cpic_recommendation := "Use label-recommended dosing.",
      cpic_level := "Strong" })]),
  ("AZATHIOPRINE", [
    ("PM", {
      risk_label := "Toxic", severity := "critical", confidence_score := 97/100,
      action := "CONTRAINDICATED",
      dosing_guidance := "CONTRAINDICATED. TPMT-deficient patients accumulate toxic thioguanine nucleotides causing severe, potentially fatal myelosuppression (bone marrow failure). Use alternative immunosuppressant (mycophenolate mofetil, cyclosporine).",
      urgency := "IMMEDIATE",
      cpic_recommendation := "Avoid azathioprine/6-mercaptopurine. Use alternative non-thiopurine immunosuppressant.",
      cpic_level := "Strong" }),
    ("IM", {
      risk_label := "Adjust Dosage", severity := "high", confidence_score := 91/100,
      action := "Reduce dose significantly",
      dosing_guidance := "Start at 30-70% of standard dose. Strict CBC monitoring weekly for 4 weeks, then monthly. Dose escalation should be very gradual.",
      urgency := "HIGH",
      cpic_recommendation := "Start with 30-70% of recommended dose. Allow 4 weeks to reach steady state before further dose adjustments.",
      cpic_level := "Strong" }),
    ("NM", {
      risk_label := "Safe", severity := "none", confidence_score := 89/100,
      action := "Standard dosing",
      dosing_guidance := "Normal TPMT activity. Standard azathioprine dosing. Routine CBC monitoring as per label.",
      urgency := "ROUTINE",
      cpic_recommendation := "Use label-recommended dosing.",
      cpic_level := "Strong" })]),
  ("FLUOROURACIL", [
    ("PM", {
      risk_label := "Toxic", severity := "critical", confidence_score := 96/100,
      action := "CONTRAINDICATED",
      dosing_guidance := "CONTRAINDICATED. DPYD-deficient patients cannot catabolize fluorouracil, resulting in severe or fatal toxicity (mucositis, neutropenia, neurotoxicity, death). Use alternative chemotherapy.",
      urgency := "IMMEDIATE",
      cpic_recommendation := "Avoid fluorouracil/capecitabine. Select alternative chemotherapeutic agent.",
      cpic_level := "Strong" }),
    ("IM", {
      risk_label := "Adjust Dosage", severity := "high", confidence_score := 90/100,
      action := "50% dose reduction",
      dosing_guidance := "50% dose reduction recommended per EMA and CPIC guidance. Enhanced toxicity monitoring at each cycle. Consider DPD phenotyping (uracil breath test) before treatment initiation.",
      urgency := "HIGH",
      cpic_recommendation := "Reduce starting dose by 50%. Titrate based on toxicity and efficacy.",
      cpic_level := "Strong" }),
    ("NM", {
      risk_label := "Safe", severity := "none", confidence_score := 88/100,
      action := "Standard dosing",
      dosing_guidance := "Normal DPYD function. Standard fluorouracil dosing per oncology protocol. Routine toxicity monitoring.",
      urgency := "ROUTINE",
      cpic_recommendation := "Use label-recommended dosing per oncology protocol.",
      cpic_level := "Strong" })])]

/-- The fallback record when the drug has no risk table at all. -/
def unknownNoDrug : RiskAssessment :=
  { risk_label := "Unknown", severity := "none", confidence_score := 50/100,
    action := "Consult clinical pharmacist",
    dosing_guidance := "No pharmacogenomic data available for this drug. Consult clinical pharmacist or pharmacogenomics specialist.",
    urgency := "ROUTINE",
    cpic_recommendation := "No CPIC guideline available for this drug.",
    cpic_level := "N/A" }

/-- The fallback record when the drug is known but neither the phenotype nor
the "NM" key is present. -/
def unknownNoPhenotype : RiskAssessment :=
  { risk_label := "Unknown", severity := "none", confidence_score := 55/100,
    action := "Consult clinical pharmacist",
    dosing_guidance := "Phenotype not covered in current guideline for this drug. Exercise caution.",
    urgency := "ROUTINE",
    cpic_recommendation := "Phenotype-specific recommendation unavailable. Consult specialist.",
    cpic_level := "Optional" }

/-- assess_risk over an explicit risk table (the source consults the module
table; the table is a parameter here so the fallback tiers are statable). -/
def assess_risk_with (table : List (String × List (String × RiskAssessment)))
    (drug phenotype : String) : RiskAssessment :=
  let drug_table := (table.lookup (pyUpper drug)).getD []
  if drug_table.isEmpty then unknownNoDrug
  else
    match drug_table.lookup phenotype with
    | some entry => entry
    | none =>
      match drug_table.lookup "NM" with
      | some entry => entry
      | none => unknownNoPhenotype

/-- assess_risk: deterministic lookup of (drug, phenotype) in RISK_TABLE. -/
def assess_risk (drug phenotype : String) : RiskAssessment :=
  assess_risk_with RISK_TABLE drug phenotype

/- ───────────────────────── Orchestrator (analysis_service.py) ───────────────────────── -/

/-- One per-drug error entry of the response. -/
structure DrugError where
  drug : String
  error : String
deriving Repr, DecidableEq

/-- The deterministic core of one per-drug Report of build_output_json (the
patient id, timestamp and generated explanation prose are external or
request-unique and are not modelled). -/
structure Report where
  drug : String
  gene : String
  genotype_result : GenotypeResult
  risk : RiskAssessment
  total_vcf_records : Nat
  confidence_level : String
deriving Repr, DecidableEq

/-- The response envelope of run_analysis (without the generated patient id). -/
structure AnalysisResponse where
  analysis_count : Nat
  vcf_parse_success : Bool
  results : List Report
  errors : List DrugError
deriving Repr, DecidableEq

/-- The error message for an unsupported drug. -/
def unsupportedMsg (d : String) : String :=
  "Drug " ++ d ++ " is not supported. Supported drugs: CODEINE, WARFARIN, CLOPIDOGREL, SIMVASTATIN, AZATHIOPRINE, FLUOROURACIL"

/-- Assemble the modelled Report for one drug. -/
def mk_report (d gene : String) (gr : GenotypeResult) (risk : RiskAssessment)
    (vcf_result : VCFParseResult) : Report :=
  { drug := d, gene := gene, genotype_result := gr, risk := risk,
    total_vcf_records := vcf_result.total_records,
    confidence_level :=
      if risk.confidence_score ≥ 85/100 then "HIGH"
      else if risk.confidence_score ≥ 70/100 then "MODERATE"
      else "LOW" }

/-- The per-drug body of the run_analysis loop: an unsupported drug becomes an
error entry, a supported one runs analysis, risk lookup and report assembly. -/
def run_drug_step (vcf_result : VCFParseResult)
    (acc : List Report × List DrugError) (drug : String) :
    List Report × List DrugError :=
  let d := pyUpper (pyStrip drug)
  match find_gene_for_drug d with
  | none => (acc.1, acc.2 ++ [{ drug := d, error := unsupportedMsg d }])
  | some gene =>
    let gr := analyze_genotype vcf_result.variants gene
    let risk := assess_risk d gr.phenotype
    (acc.1 ++ [mk_report d gene gr risk vcf_result], acc.2)

/-- run_analysis: one shared parse, then the per-drug pipeline; an unsupported
drug is skipped, other drugs proceed independently. A parse-time
AttributeError (bare-flag gene tag) propagates: no response is produced. -/
def run_analysis (vcf_content : String) (drugs : List String) : Option AnalysisResponse :=
  match parse_vcf_content vcf_content with
  | none => none
  | some vcf_result =>
    let out := drugs.foldl (run_drug_step vcf_result) ([], [])
    some { analysis_count := out.1.length, vcf_parse_success := vcf_result.success,
           results := out.1, errors := out.2 }

/- ───────────────── Claim-side definitions and concrete fixtures ───────────────── -/

/-- The external-reference naming convention as the spec words it: the
"rs" marker followed by digits. -/
def spec_rs_convention (s : String) : Bool :=
  pyStartsWith "rs" s && decide ((chars s).drop 2 ≠ []) && ((chars s).drop 2).all Char.isDigit

/-- Diplotype construction exactly as claim C6 words it: collect allele-names
excluding only "Unknown", then pair wild-type with up to the first two. -/
def claim_diplotype (detected : List DetectedVariant) : String :=
  let names := (detected.filter (fun d => d.star_allele ≠ "Unknown")).map (·.star_allele)
  match names with
  | [] => "*1" ++ "/" ++ "*1"
  | [a] => "*1" ++ "/" ++ a
  | a :: b :: _ => a ++ "/" ++ b

/-- Diplotype construction as amended: allele-names that are empty (falsy in
the source) are excluded along with "Unknown". -/
def amended_diplotype (detected : List DetectedVariant) : String :=
  let names :=
    (detected.filter (fun d => d.star_allele ≠ "" && d.star_allele ≠ "Unknown")).map
      (·.star_allele)
  match names with
  | [] => "*1" ++ "/" ++ "*1"
  | [a] => "*1" ++ "/" ++ a
  | a :: b :: _ => a ++ "/" ++ b

/-- The per-variant effect weight exactly as claim C9 words it. -/
def claim_activity_weight (effect : String) : ℚ :=
  if effect = "loss_of_function" then 0
  else if effect = "reduced_function" then 1/2
  else if effect = "normal_function" then 1
  else if effect = "increased_function" then 2
  else 1

/-- A detected variant whose allele-name field is the empty string. -/
def c6_empty_name_variant : DetectedVariant :=
  { rsid := "rsX", gene := "CYP2D6", star_allele := "", effect := "unknown",
    chrom := "1", pos := 1, ref := "G", alt := "A", genotype := some "0/1" }

/-- The heterozygous single-line VCF of the CODEINE scenario. -/
def vcf_demo_het : String :=
  "chr22\t42522613\trs3892097\tG\tA\t.\t.\tGENE=CYP2D6\tGT\t0/1"

/-- The same VCF line with a homozygous-reference genotype. -/
def vcf_demo_homref : String :=
  "chr22\t42522613\trs3892097\tG\tA\t.\t.\tGENE=CYP2D6\tGT\t0/0"

/-- A record whose rsID is in the knowledge base under CYP2C19 while its own
gene tag says CYP2D6. -/
def c2_cross_gene_variant : VCFVariant :=
  { chrom := "chr10", pos := 1, rsid := some "rs4244285", ref := "G", alt := "A",
    qual := ".", filter_status := ".", gene := some "CYP2D6", star_allele := none,
    genotype := some "0/1", raw_info := [] }

/-- A one-drug demonstration risk table with a non-empty per-drug table. -/
def c4_demo_table : List (String × List (String × RiskAssessment)) :=
  [("DEMODRUG", [("PM", unknownNoDrug)])]

/-- A well-formed single data line whose INFO field is the bare flag GENE:
the source stores the boolean True as the gene tag and the pg_variants
comprehension then raises AttributeError at True.upper(). -/
def vcf_gene_flag_input : String := "1\t100\t.\tG\tA\t.\t.\tGENE"

/-- A loss-of-function detected variant for the C9 rounding counterexample. -/
def c9_lof_variant : DetectedVariant :=
  { rsid := "rs3892097", gene := "CYP2D6", star_allele := "*4",
    effect := "loss_of_function", chrom := "chr22", pos := 42522613,
    ref := "G", alt := "A", genotype := some "0/1" }

/-- A reduced-function detected variant for the C9 rounding counterexample. -/
def c9_reduced_variant : DetectedVariant :=
  { rsid := "rs1065852", gene := "CYP2D6", star_allele := "*10",
    effect := "reduced_function", chrom := "chr22", pos := 42526694,
    ref := "C", alt := "T", genotype := some "0/1" }

/-- Twenty detected variants averaging to one fortieth: one reduced-function
variant followed by nineteen loss-of-function ones. -/
def c9_tie_list : List DetectedVariant :=
  c9_reduced_variant :: List.replicate 19 c9_lof_variant

/- ───────────────────────── Helper lemmas ───────────────────────── -/

/-- A successful association-list lookup returns the second component of some
member of the list. -/
theorem lookup_mem {α β : Type} [BEq α] {l : List (α × β)} {k : α} {b : β}
    (h : l.lookup k = some b) : ∃ p ∈ l, p.2 = b := by
  induction l with
  | nil => simp [List.lookup] at h
  | cons p rest ih =>
    obtain ⟨k1, b1⟩ := p
    simp only [List.lookup] at h
    cases hk : (k == k1) with
    | false =>
      rw [hk] at h
      simp only at h
      obtain ⟨p2, hp2, he⟩ := ih h
      exact ⟨p2, List.mem_cons_of_mem _ hp2, he⟩
    | true =>
      rw [hk] at h
      simp only [Option.some.injEq] at h
      exact ⟨(k1, b1), List.mem_cons_self _ _, h⟩

/-- Splitting a count by a second predicate. -/
theorem countP_split_by (p q : α → Bool) (l : List α) :
    l.countP p
      = l.countP (fun x => p x && q x) + l.countP (fun x => p x && !q x) := by
  induction l with
  | nil => simp
  | cons x xs ih =>
    simp only [List.countP_cons]
    cases hp : p x <;> cases hq : q x <;> simp [hp, hq] <;> omega

/-- Each detect_variants step either leaves the accumulator unchanged or
appends one detected variant together with its previously unseen rsID. -/
theorem detect_step_cases (gene : String) (acc : List DetectedVariant × List String)
    (v : VCFVariant) :
    detect_step gene acc v = acc ∨
    ∃ dv : DetectedVariant, acc.2.contains dv.rsid = false ∧
      detect_step gene acc v = (acc.1 ++ [dv], acc.2 ++ [dv.rsid]) := by
  obtain ⟨detected, seen⟩ := acc
  simp only [detect_step]
  split
  · exact Or.inl rfl
  · split
    · exact Or.inl rfl
    · rename_i r
      split
      · exact Or.inl rfl
      · split
        · rename_i kb hkb
          split
          · rename_i hcond
            simp only [Bool.and_eq_true, Bool.not_eq_true'] at hcond
            exact Or.inr ⟨_, hcond.2, rfl⟩
          · exact Or.inl rfl
        · split
          · rename_i hcond
            simp only [Bool.and_eq_true, Bool.not_eq_true'] at hcond
            exact Or.inr ⟨_, hcond.2, rfl⟩
          · exact Or.inl rfl

/-- Fold invariant of detect_variants: the seen set is exactly the rsIDs of
the detected list, without duplicates. -/
theorem detect_fold_invariant (gene : String) (vs : List VCFVariant) :
    ∀ acc : List DetectedVariant × List String,
      acc.2 = acc.1.map (·.rsid) → acc.2.Nodup →
      ((vs.foldl (detect_step gene) acc).2
          = (vs.foldl (detect_step gene) acc).1.map (·.rsid)
        ∧ (vs.foldl (detect_step gene) acc).2.Nodup) := by
  induction vs with
  | nil => intro acc h1 h2; exact ⟨h1, h2⟩
  | cons v rest ih =>
    intro acc h1 h2
    simp only [List.foldl_cons]
    rcases detect_step_cases gene acc v with h | ⟨dv, hc, heq⟩
    · rw [h]; exact ih acc h1 h2
    · rw [heq]
      refine ih _ (by simp [h1]) ?_
      have hmem : dv.rsid ∉ acc.2 := by simpa using hc
      simp [List.nodup_append, h2, hmem]

/-- The activity_map dictionary lookup with default 1 agrees with the explicit
weight function of claim C9. -/
theorem activity_map_lookup_eq (effect : String) :
    (activity_map.lookup effect).getD 1 = claim_activity_weight effect := by
  by_cases h1 : effect = "loss_of_function"
  · subst h1; rfl
  by_cases h2 : effect = "reduced_function"
  · subst h2; rfl
  by_cases h3 : effect = "normal_function"
  · subst h3; rfl
  by_cases h4 : effect = "increased_function"
  · subst h4; rfl
  simp only [activity_map, claim_activity_weight, List.lookup]
  rw [show (effect == "loss_of_function") = false by simp [h1],
      show (effect == "reduced_function") = false by simp [h2],
      show (effect == "normal_function") = false by simp [h3],
      show (effect == "increased_function") = false by simp [h4]]
  simp [h1, h2, h3, h4]

/-- parse_data_fields yields a parsed record exactly when the line is well
formed (at least 8 fields and a parsable POS). -/
theorem parse_data_fields_isRight (line : String) (total : Nat) :
    (parse_data_fields line total).isRight =
      (decide ((pySplit '\t' line).length ≥ 8)
        && (pyParseInt ((pySplit '\t' line).getD 1 "")).isSome) := by
  by_cases hlen : (pySplit '\t' line).length < 8
  · have hn : ¬ ((pySplit '\t' line).length ≥ 8) := by omega
    simp [parse_data_fields, hlen, hn]
  · have hy : (pySplit '\t' line).length ≥ 8 := by omega
    cases hpos : pyParseInt ((pySplit '\t' line)[1]?.getD "") <;>
      simp [parse_data_fields, hlen, hy, hpos, List.getD]

/-- Per-line accounting of the parse loop: a non-data line changes no counter,
a malformed data line adds one error, a well-formed one adds one record. -/
theorem parse_line_stats (st : ParseState) (l : String) :
    (parse_line st l).total_records = st.total_records + (if is_data_line l then 1 else 0)
    ∧ (parse_line st l).errors.length
        = st.errors.length + (if is_data_line l && !well_formed_line l then 1 else 0)
    ∧ (parse_line st l).variants.length
        = st.variants.length + (if is_data_line l && well_formed_line l then 1 else 0) := by
  simp only [parse_line]
  split
  · rename_i h1
    have hd : is_data_line l = false := by simp [is_data_line, h1]
    split
    · split <;> simp [hd]
    · simp [hd]
  · rename_i h1
    split
    · rename_i h2
      have hd : is_data_line l = false := by simp [is_data_line, h2]
      simp [hd]
    · rename_i h2
      split
      · rename_i h3
        have hd : is_data_line l = false := by simp [is_data_line, h3]
        simp [hd]
      · rename_i h3
        have hd : is_data_line l = true := by
          simp [is_data_line, h1, h2, h3]
        have hwf := parse_data_fields_isRight (pyStrip l) (st.total_records + 1)
        cases hpd : parse_data_fields (pyStrip l) (st.total_records + 1) with
        | inl e =>
          rw [hpd] at hwf
          have hw : well_formed_line l = false := by
            simpa [well_formed_line] using hwf.symm
          simp [hd, hw]
        | inr v =>
          rw [hpd] at hwf
          have hw : well_formed_line l = true := by
            simpa [well_formed_line] using hwf.symm
          simp [hd, hw]

/-- Accounting over the whole parse loop, for any starting state. -/
theorem parse_fold_stats (lines : List String) :
    ∀ st : ParseState,
      (lines.foldl parse_line st).total_records
          = st.total_records + lines.countP is_data_line
      ∧ (lines.foldl parse_line st).errors.length
          = st.errors.length + lines.countP (fun l => is_data_line l && !well_formed_line l)
      ∧ (lines.foldl parse_line st).variants.length
          = st.variants.length + lines.countP (fun l => is_data_line l && well_formed_line l) := by
  induction lines with
  | nil => intro st; simp
  | cons l rest ih =>
    intro st
    simp only [List.foldl_cons, List.countP_cons]
    obtain ⟨h1, h2, h3⟩ := ih (parse_line st l)
    obtain ⟨g1, g2, g3⟩ := parse_line_stats st l
    refine ⟨?_, ?_, ?_⟩
    · rw [h1, g1]; cases hd : is_data_line l <;> simp [hd] <;> omega
    · rw [h2, g2]
      cases hd : is_data_line l <;> cases hw : well_formed_line l <;>
        simp [hd, hw] <;> omega
    · rw [h3, g3]
      cases hd : is_data_line l <;> cases hw : well_formed_line l <;>
        simp [hd, hw] <;> omega

/-- Accounting over the per-drug loop of run_analysis, for any accumulator:
errors are exactly the unsupported drugs, report count the supported ones. -/
theorem run_fold_stats (vcf_result : VCFParseResult) (drugs : List String) :
    ∀ acc : List Report × List DrugError,
      (drugs.foldl (run_drug_step vcf_result) acc).2
          = acc.2 ++ drugs.filterMap (fun drug =>
              if (find_gene_for_drug (pyUpper (pyStrip drug))).isNone
              then some { drug := pyUpper (pyStrip drug),
                          error := unsupportedMsg (pyUpper (pyStrip drug)) }
              else none)
      ∧ (drugs.foldl (run_drug_step vcf_result) acc).1.length
          = acc.1.length
              + drugs.countP (fun drug => (find_gene_for_drug (pyUpper (pyStrip drug))).isSome) := by
  induction drugs with
  | nil => intro acc; simp
  | cons drug rest ih =>
    intro acc
    simp only [List.foldl_cons, List.filterMap_cons, List.countP_cons]
    obtain ⟨i1, i2⟩ := ih (run_drug_step vcf_result acc drug)
    cases hg : find_gene_for_drug (pyUpper (pyStrip drug)) with
    | none =>
      have hstep : run_drug_step vcf_result acc drug
          = (acc.1, acc.2 ++ [{ drug := pyUpper (pyStrip drug),
                                error := unsupportedMsg (pyUpper (pyStrip drug)) }]) := by
        simp [run_drug_step, hg]
      refine ⟨?_, ?_⟩
      · rw [i1, hstep]; simp
      · rw [i2, hstep]; simp
    | some gene =>
      obtain ⟨rep, hstep⟩ : ∃ rep, run_drug_step vcf_result acc drug = (acc.1 ++ [rep], acc.2) :=
        ⟨mk_report (pyUpper (pyStrip drug)) gene (analyze_genotype vcf_result.variants gene)
            (assess_risk (pyUpper (pyStrip drug)) (analyze_genotype vcf_result.variants gene).phenotype)
            vcf_result,
          by simp [run_drug_step, hg]⟩
      refine ⟨?_, ?_⟩
      · rw [i1, hstep]; simp
      · rw [i2, hstep]
        simp only [List.length_append, List.length_cons, List.length_nil, Option.isSome_some,
          if_true]
        omega


/-- One half is an exact binary64 value. -/
theorem nearestFloat_half : nearestFloat (1/2 : ℚ) = 1/2 := by
  have hnum : ((1:ℚ)/2).num = 1 := by norm_num
  have hden : ((1:ℚ)/2).den = 2 := by norm_num
  simp only [nearestFloat, hnum, hden]
  rw [if_neg (by norm_num : ¬ ((1:ℚ)/2 ≤ 0))]
  rw [show ((1 : ℤ).toNat) = 1 by decide]
  rw [show binadeExp 1 2 = -1 by decide]
  rw [show ((-1 - 52 : ℤ) ⊔ -1074) = -53 by decide]
  rw [if_neg (by decide : ¬ ((0:ℤ) ≤ -53))]
  rw [show ((-(-53 : ℤ)).toNat) = 53 by decide]
  norm_num [halfEvenDivNat]

/-- Twenty is an exact binary64 value. -/
theorem nearestFloat_twenty : nearestFloat (20 : ℚ) = 20 := by
  have hnum : ((20:ℚ)).num = 20 := by norm_num
  have hden : ((20:ℚ)).den = 1 := by norm_num
  simp only [nearestFloat, hnum, hden]
  rw [if_neg (by norm_num : ¬ ((20:ℚ) ≤ 0))]
  rw [show ((20 : ℤ).toNat) = 20 by decide]
  rw [show binadeExp 20 1 = 4 by decide]
  rw [show ((4 - 52 : ℤ) ⊔ -1074) = -48 by decide]
  rw [if_neg (by decide : ¬ ((0:ℤ) ≤ -48))]
  rw [show ((-(-48 : ℤ)).toNat) = 48 by decide]
  norm_num [halfEvenDivNat]

/-- The binary64 value nearest one fortieth lies just above it. -/
theorem nearestFloat_fortieth :
    nearestFloat (1/40 : ℚ) = 7205759403792794 / 288230376151711744 := by
  have hnum : ((1:ℚ)/40).num = 1 := by norm_num
  have hden : ((1:ℚ)/40).den = 40 := by norm_num
  simp only [nearestFloat, hnum, hden]
  rw [if_neg (by norm_num : ¬ ((1:ℚ)/40 ≤ 0))]
  rw [show ((1 : ℤ).toNat) = 1 by decide]
  rw [show binadeExp 1 40 = -6 by decide]
  rw [show ((-6 - 52 : ℤ) ⊔ -1074) = -58 by decide]
  rw [if_neg (by decide : ¬ ((0:ℤ) ≤ -58))]
  rw [show ((-(-58 : ℤ)).toNat) = 58 by decide]
  rw [show halfEvenDivNat (1 * 2 ^ 58) 40 = 7205759403792794 by decide]
  norm_num

/-- Adding one half to zero is exact in binary64. -/
theorem floatAdd_zero_half : floatAdd 0 (1/2 : ℚ) = 1/2 := by
  show nearestFloat ((0:ℚ) + 1/2) = 1/2
  rw [show ((0:ℚ) + 1/2) = 1/2 by norm_num, nearestFloat_half]

/-- Adding zero to one half is exact in binary64. -/
theorem floatAdd_half_zero : floatAdd (1/2 : ℚ) 0 = 1/2 := by
  show nearestFloat ((1:ℚ)/2 + 0) = 1/2
  rw [show ((1:ℚ)/2 + 0) = 1/2 by norm_num, nearestFloat_half]

/-- Two-decimal rounding of the double nearest one fortieth gives 0.03. -/
theorem round2_float_fortieth :
    round2 (7205759403792794 / 288230376151711744 : ℚ) = 3/100 := by
  simp only [round2, pyRoundHalfEven]
  rw [show ⌊(7205759403792794 / 288230376151711744 : ℚ) * 100⌋ = 2 by norm_num]
  rw [if_neg (by norm_num), if_pos (by norm_num)]
  norm_num

/-- Exact two-decimal half-even rounding of one fortieth gives 0.02. -/
theorem round2_exact_fortieth : round2 (1/40 : ℚ) = 2/100 := by
  simp only [round2, pyRoundHalfEven]
  rw [show ⌊(1/40 : ℚ) * 100⌋ = 2 by norm_num]
  rw [if_neg (by norm_num), if_neg (by norm_num), if_pos (by decide)]
  norm_num

/- ───────────────────────── Claim theorems ───────────────────────── -/

/-- Claim C1, counterexample: on the all-missing genotype the zygosity check
returns false although not every allele token is the zero allele, so the
claimed equivalence (false iff every token is the zero allele) fails. -/
theorem C1_counterexample :
    is_variant_present (some "./.") = false ∧
    ((pySplit '/' (pyReplaceChar '|' '/' "./.")).all (fun a => a == "0")) = false := by
  decide

/-- Claim C1 as amended: is_variant_present returns false exactly when the
genotype is a non-empty string all of whose allele tokens, after normalizing
the phased separator, are the zero allele or the missing marker; a null or
empty genotype yields true. -/
theorem C1_zygosity_amended (g : Option String) :
    is_variant_present g = false ↔
      ∃ s, g = some s ∧
        ((pySplit '/' (pyReplaceChar '|' '/' s)).all (fun a => a == "0" || a == ".")) = true := by
  cases g with
  | none => simp [is_variant_present]
  | some s =>
    simp only [Option.some.injEq, exists_eq_left']
    by_cases hs : s = ""
    · subst hs; decide
    · simp only [is_variant_present, hs, if_false]
      simp only [List.any_eq_false, List.all_eq_true, Bool.not_eq_true', Bool.ne_false_iff]

/-- Claim C2, counterexample: a zygosity-passing record whose rsID sits in the
knowledge base under a different gene, while its own gene tag matches the
target gene, is NOT recorded: the knowledge-base branch swallows it and the
gene-tag fallback is never reached. -/
theorem C2_counterexample :
    is_variant_present c2_cross_gene_variant.genotype = true
    ∧ PGX_VARIANTS.lookup "rs4244285" = some ⟨"CYP2C19", "*2", "loss_of_function"⟩
    ∧ c2_cross_gene_variant.gene = some "CYP2D6"
    ∧ pyUpper "CYP2D6" = "CYP2D6"
    ∧ detect_variants [c2_cross_gene_variant] "CYP2D6" = [] := by
  decide

/-- Claim C2 as amended: for a single zygosity-passing record, knowledge-base
lookup is attempted first and, when the rsID is known, decides alone (a gene
mismatch yields nothing); the gene-tag fallback with effect unknown applies
only to rsIDs absent from the knowledge base; and across any record list each
distinct rsID contributes at most one detected variant. -/
theorem C2_matching_amended (v : VCFVariant) (gene : String) (vs : List VCFVariant) :
    detect_variants [v] gene =
      (if is_variant_present v.genotype = false then []
       else
         match v.rsid with
         | none => []
         | some r =>
           if r = "" then []
           else
             match PGX_VARIANTS.lookup r with
             | some kb =>
               if kb.gene = gene then
                 [{ rsid := r, gene := gene, star_allele := kb.star, effect := kb.effect,
                    chrom := v.chrom, pos := v.pos, ref := v.ref, alt := v.alt,
                    genotype := v.genotype }]
               else []
             | none =>
               if (match v.gene with
                   | some g => g ≠ "" && pyUpper g = gene
                   | none => false) = true then
                 [{ rsid := r, gene := gene,
                    star_allele := (match v.star_allele with
                                    | some s => if s ≠ "" then s else "Unknown"
                                    | none => "Unknown"),
                    effect := "unknown", chrom := v.chrom, pos := v.pos, ref := v.ref,
                    alt := v.alt, genotype := v.genotype }]
               else [])
    ∧ ((detect_variants vs gene).map (·.rsid)).Nodup := by
  constructor
  · simp only [detect_variants, List.foldl_cons, List.foldl_nil, detect_step]
    cases hp : is_variant_present v.genotype
    · simp [hp]
    · simp only [hp, Bool.not_true, Bool.false_eq_true, if_false]
      cases hr : v.rsid with
      | none => simp
      | some r =>
        by_cases hre : r = ""
        · simp [hre]
        · simp only [hre, if_false, if_neg hre]
          cases hlk : PGX_VARIANTS.lookup r with
          | some kb =>
            by_cases hg : kb.gene = gene <;>
              simp [hg, List.contains_nil]
          | none =>
            cases hgt : (match v.gene with
                         | some g => g ≠ "" && pyUpper g = gene
                         | none => false) <;>
              simp [hgt, List.contains_nil]
  · have h := detect_fold_invariant gene vs ([], []) (by simp) (by simp)
    rw [detect_variants, ← h.1]
    exact h.2

/-- Claim C3: on the single-line CODEINE scenario VCF the resolved gene is
CYP2D6; with genotype 0/1 exactly the rs3892097 loss-of-function star-4
variant is detected, the diplotype is star-1/star-4 and the phenotype IM;
with genotype 0/0 the variant is excluded, the phenotype is NM and the
diplotype star-1/star-1. -/
theorem C3_codeine_scenario :
    find_gene_for_drug "CODEINE" = some "CYP2D6"
    ∧ (parse_vcf_content vcf_demo_het).map
        (fun r => (analyze_genotype r.variants "CYP2D6").detected_variants)
        = some [{ rsid := "rs3892097", gene := "CYP2D6", star_allele := "*4",
                  effect := "loss_of_function", chrom := "chr22", pos := 42522613,
                  ref := "G", alt := "A", genotype := some "0/1" }]
    ∧ (parse_vcf_content vcf_demo_het).map
        (fun r => (analyze_genotype r.variants "CYP2D6").diplotype) = some "*1/*4"
    ∧ (parse_vcf_content vcf_demo_het).map
        (fun r => (analyze_genotype r.variants "CYP2D6").phenotype) = some "IM"
    ∧ (parse_vcf_content vcf_demo_homref).map
        (fun r => (analyze_genotype r.variants "CYP2D6").detected_variants) = some []
    ∧ (parse_vcf_content vcf_demo_homref).map
        (fun r => (analyze_genotype r.variants "CYP2D6").phenotype) = some "NM"
    ∧ (parse_vcf_content vcf_demo_homref).map
        (fun r => (analyze_genotype r.variants "CYP2D6").diplotype) = some "*1/*1" := by
  decide

/-- Claim C4: over any risk table with non-empty per-drug tables, assess_risk
returns the 0.50-confidence N/A fallback when the drug is unknown, the exact
entry verbatim when the phenotype key is present, the NM entry when only the
phenotype key is absent, and otherwise the distinct 0.55-confidence Optional
fallback, whose messaging differs from the no-drug fallback. -/
theorem C4_assess_risk (tbl : List (String × List (String × RiskAssessment)))
    (drug phenotype : String) (h : ∀ p ∈ tbl, p.2.isEmpty = false) :
    assess_risk drug phenotype = assess_risk_with RISK_TABLE drug phenotype
    ∧ assess_risk_with tbl drug phenotype =
        (match tbl.lookup (pyUpper drug) with
         | none => unknownNoDrug
         | some dt =>
           match dt.lookup phenotype with
           | some entry => entry
           | none =>
             match dt.lookup "NM" with
             | some entry => entry
             | none => unknownNoPhenotype)
    ∧ unknownNoDrug.cpic_level = "N/A"
    ∧ unknownNoDrug.confidence_score = 50/100
    ∧ unknownNoPhenotype.cpic_level = "Optional"
    ∧ unknownNoPhenotype.confidence_score = 55/100
    ∧ unknownNoPhenotype.dosing_guidance ≠ unknownNoDrug.dosing_guidance
    ∧ unknownNoPhenotype.cpic_recommendation ≠ unknownNoDrug.cpic_recommendation := by
  refine ⟨rfl, ?_, rfl, rfl, rfl, rfl, by decide, by decide⟩
  unfold assess_risk_with
  cases hl : tbl.lookup (pyUpper drug) with
  | none => simp
  | some dt =>
    obtain ⟨p, hp, he⟩ := lookup_mem hl
    have hne : dt.isEmpty = false := he ▸ h p hp
    simp only [Option.getD_some, hne, Bool.false_eq_true, if_false]

/-- Claim C4, witness: the theorem applied to a concrete demonstration table
and the unknown drug ASPIRIN with phenotype URM. -/
theorem C4_assess_risk_witness :
    assess_risk "ASPIRIN" "URM" = assess_risk_with RISK_TABLE "ASPIRIN" "URM"
    ∧ assess_risk_with c4_demo_table "ASPIRIN" "URM" =
        (match c4_demo_table.lookup (pyUpper "ASPIRIN") with
         | none => unknownNoDrug
         | some dt =>
           match dt.lookup "URM" with
           | some entry => entry
           | none =>
             match dt.lookup "NM" with
             | some entry => entry
             | none => unknownNoPhenotype)
    ∧ unknownNoDrug.cpic_level = "N/A"
    ∧ unknownNoDrug.confidence_score = 50/100
    ∧ unknownNoPhenotype.cpic_level = "Optional"
    ∧ unknownNoPhenotype.confidence_score = 55/100
    ∧ unknownNoPhenotype.dosing_guidance ≠ unknownNoDrug.dosing_guidance
    ∧ unknownNoPhenotype.cpic_recommendation ≠ unknownNoDrug.cpic_recommendation :=
  C4_assess_risk c4_demo_table "ASPIRIN" "URM" (by decide)

/-- Claim C5, counterexample: an identifier column that starts with the rs
marker but is not followed by digits is still used as the rsID, although the
claim says the column is used exactly when it matches the rs-digits
convention, and here the INFO field carries no RS code either. -/
theorem C5_counterexample :
    (parse_vcf_content "1\t100\trsBAD\tG\tA\t.\t.\tX=1").map
        (fun r => r.variants.map (·.rsid)) = some [some "rsBAD"]
    ∧ spec_rs_convention "rsBAD" = false
    ∧ (parse_vcf_content "1\t100\trsBAD\tG\tA\t.\t.\tX=1").map
        (fun r => r.variants.map (fun v => v.raw_info.lookup "RS")) = some [none] := by
  decide

/-- Claim C5 as amended: the identifier column is used exactly when it is
non-empty and starts with the rs marker (no digit check); otherwise, when the
annotation carries an RS key of any shape, the rsID is synthesized from its
stringified value; otherwise the rsID is null. The concrete conjuncts run the
synthesis path and the null path through the full parser. -/
theorem C5_rsid_amended (id_col : String) (info : List (String × InfoVal)) :
    extract_rsid id_col info =
      (if id_col ≠ "" ∧ pyStartsWith "rs" id_col = true then some id_col
       else (info.lookup "RS").map (fun v => "rs" ++ infoValText v))
    ∧ (parse_vcf_content "1\t100\t.\tG\tA\t.\t.\tRS=123").map
        (fun r => r.variants.map (·.rsid)) = some [some "rs123"]
    ∧ (parse_vcf_content "1\t100\tabc\tG\tA\t.\t.\tGENE=CYP2D6").map
        (fun r => r.variants.map (·.rsid)) = some [none] := by
  refine ⟨?_, by decide, by decide⟩
  unfold extract_rsid
  by_cases h1 : id_col = "" <;> by_cases h2 : pyStartsWith "rs" id_col = true <;>
    simp only [h1, h2] <;> simp <;> cases info.lookup "RS" <;> simp

/-- Claim C6, counterexample: a detected variant whose allele-name is the
empty string is dropped by the source (Python truthiness) but kept by the
claim, which excludes only the name Unknown, so the diplotypes differ. -/
theorem C6_counterexample :
    (assign_phenotype "CYP2D6" [c6_empty_name_variant]).diplotype = "*1/*1"
    ∧ claim_diplotype [c6_empty_name_variant] = "*1/"
    ∧ (assign_phenotype "CYP2D6" [c6_empty_name_variant]).diplotype
        ≠ claim_diplotype [c6_empty_name_variant] := by
  decide

/-- Claim C6 as amended: the diplotype collects allele-names excluding
Unknown and the empty name, pairing wild-type with up to the first two names
in detection order; and the phenotype is classified from the effect counts of
ALL detected variants, independently of the diplotype truncation. -/
theorem C6_diplotype_amended (gene : String) (detected : List DetectedVariant) :
    (assign_phenotype gene detected).diplotype = amended_diplotype detected
    ∧ (assign_phenotype gene detected).phenotype =
        eval_rules (detected.countP (fun d => d.effect = "loss_of_function"))
          (detected.countP (fun d => d.effect = "reduced_function"))
          (detected.countP (fun d => d.effect = "increased_function"))
          ((PHENOTYPE_RULES.lookup gene).getD [{ isDefault := true, phenotype := "Unknown" }]) := by
  constructor
  · simp only [assign_phenotype, amended_diplotype]
    rcases h : (detected.filter
        (fun d => d.star_allele ≠ "" && d.star_allele ≠ "Unknown")).map (·.star_allele) with
      _ | ⟨a, _ | ⟨b, rest⟩⟩ <;>
    rw [h]
  · simp [assign_phenotype, List.countP_eq_length_filter]

/-- Claim C7 (code bug): whenever parsing completes, the number of skip
errors plus the number of retained records equals total_records and the
retained-record count equals the number of well-formed data lines; but on a
well-formed data line whose INFO is the bare flag GENE the source raises
AttributeError in the pg_variants comprehension, so parsing returns nothing
and there are no counts at all. -/
theorem C7_parse_accounting :
    parse_vcf_content vcf_gene_flag_input = none
    ∧ is_data_line vcf_gene_flag_input = true
    ∧ well_formed_line vcf_gene_flag_input = true
    ∧ (∀ (content : String) (r : VCFParseResult), parse_vcf_content content = some r →
        (r.errors.length + r.variants.length = r.total_records
         ∧ r.variants.length
             = (pySplit '\n' (pyStrip content)).countP
                 (fun l => is_data_line l && well_formed_line l))) := by
  refine ⟨by decide, by decide, by decide, ?_⟩
  intro content r hr
  obtain ⟨h1, h2, h3⟩ := parse_fold_stats (pySplit '\n' (pyStrip content)) ⟨[], [], [], 0⟩
  have hsplit := countP_split_by is_data_line well_formed_line (pySplit '\n' (pyStrip content))
  simp only [parse_vcf_content] at hr
  cases hc : count_pgx_relevant
      ((pySplit '\n' (pyStrip content)).foldl parse_line ⟨[], [], [], 0⟩).variants with
  | none => rw [hc] at hr; exact absurd hr (by simp)
  | some n =>
    rw [hc] at hr
    simp only [Option.some.injEq] at hr
    subst hr
    refine ⟨?_, ?_⟩
    · show ((pySplit '\n' (pyStrip content)).foldl parse_line ⟨[], [], [], 0⟩).errors.length
          + ((pySplit '\n' (pyStrip content)).foldl parse_line ⟨[], [], [], 0⟩).variants.length
          = ((pySplit '\n' (pyStrip content)).foldl parse_line ⟨[], [], [], 0⟩).total_records
      rw [h1, h2, h3]
      simp only [List.length_nil]
      omega
    · show ((pySplit '\n' (pyStrip content)).foldl parse_line ⟨[], [], [], 0⟩).variants.length
          = (pySplit '\n' (pyStrip content)).countP (fun l => is_data_line l && well_formed_line l)
      rw [h3]
      simp

/-- Claim C8 (code bug): whenever the shared parse completes, an unsupported
drug yields exactly one error entry naming it, built without consulting the
parsed file, supported drugs each yield one Report, and analysis_count
equals the Report count (the concrete mixed request gives one Report, one
error naming IBUPROFEN, analysis_count one); but on a bare-flag GENE input
the source raises during the shared parse, so no response, error entry or
Report is produced at all. -/
theorem C8_per_drug_isolation :
    run_analysis vcf_gene_flag_input ["CODEINE", "IBUPROFEN"] = none
    ∧ (∀ (vcf_content : String) (drugs : List String) (res : AnalysisResponse),
        run_analysis vcf_content drugs = some res →
        (res.errors = drugs.filterMap (fun drug =>
              if (find_gene_for_drug (pyUpper (pyStrip drug))).isNone
              then some { drug := pyUpper (pyStrip drug),
                          error := unsupportedMsg (pyUpper (pyStrip drug)) }
              else none)
         ∧ res.results.length
             = drugs.countP (fun drug => (find_gene_for_drug (pyUpper (pyStrip drug))).isSome)
         ∧ res.analysis_count = res.results.length))
    ∧ (run_analysis "" ["CODEINE", "IBUPROFEN"]).map (·.results.length) = some 1
    ∧ (run_analysis "" ["CODEINE", "IBUPROFEN"]).map (fun res => res.errors.map (·.drug))
        = some ["IBUPROFEN"]
    ∧ (run_analysis "" ["CODEINE", "IBUPROFEN"]).map (·.analysis_count) = some 1 := by
  refine ⟨by decide, ?_, by decide, by decide, by decide⟩
  intro vcf_content drugs res hres
  simp only [run_analysis] at hres
  cases hp : parse_vcf_content vcf_content with
  | none => rw [hp] at hres; exact absurd hres (by simp)
  | some vcf_result =>
    rw [hp] at hres
    simp only [Option.some.injEq] at hres
    subst hres
    obtain ⟨h1, h2⟩ := run_fold_stats vcf_result drugs ([], [])
    exact ⟨by simpa using h1, by simpa using h2, rfl⟩

/-- Claim C9, counterexample: on one reduced-function plus nineteen
loss-of-function variants the exact average is one fortieth, whose exact
two-decimal half-even rounding is 0.02, but the source averages in binary64
(the double nearest one fortieth lies just above it) and its round gives
0.03, so the activity score is not the exactly-rounded average. -/
theorem C9_counterexample :
    (assign_phenotype "CYP2D6" c9_tie_list).activity_score = 3/100
    ∧ round2 ((c9_tie_list.map (fun d => claim_activity_weight d.effect)).sum
        / (c9_tie_list.length : ℚ)) = 2/100
    ∧ ((3 : ℚ)/100) ≠ 2/100 := by
  refine ⟨?_, ?_, by norm_num⟩
  · have hmapped : c9_tie_list.map (fun d => (activity_map.lookup d.effect).getD 1)
        = (1/2 : ℚ) :: List.replicate 19 0 := by
      simp only [c9_tie_list, List.map_cons, List.map_replicate]
      rfl
    have hfold : ∀ n : Nat, (List.replicate n (0 : ℚ)).foldl floatAdd (1/2) = 1/2 := by
      intro n
      induction n with
      | zero => rfl
      | succ k ih => simp only [List.replicate_succ, List.foldl_cons, floatAdd_half_zero, ih]
    have hlen : (c9_tie_list.length : ℚ) = 20 := by
      simp [c9_tie_list]
    simp only [assign_phenotype, show c9_tie_list.isEmpty = false from rfl,
      Bool.false_eq_true, if_false, hmapped, List.foldl_cons, floatAdd_zero_half,
      hfold 19, hlen, nearestFloat_twenty]
    have hdiv : floatDiv (1/2 : ℚ) 20 = 7205759403792794 / 288230376151711744 := by
      show nearestFloat ((1/2 : ℚ) / 20) = 7205759403792794 / 288230376151711744
      rw [show ((1/2 : ℚ) / 20) = 1/40 by norm_num, nearestFloat_fortieth]
    rw [hdiv, round2_float_fortieth]
  · have hmapw : c9_tie_list.map (fun d => claim_activity_weight d.effect)
        = (1/2 : ℚ) :: List.replicate 19 0 := by
      simp only [c9_tie_list, List.map_cons, List.map_replicate]
      rfl
    have hlen : (c9_tie_list.length : ℚ) = 20 := by
      simp [c9_tie_list]
    rw [hmapw, hlen]
    rw [show (((1/2 : ℚ) :: List.replicate 19 0).sum / 20) = 1/40 by
      simp [List.sum_replicate]; norm_num]
    exact round2_exact_fortieth

/-- Claim C9 as amended: for a non-empty detected list the activity score is
the per-variant weight list (loss 0, reduced one half, normal 1, increased
2, anything else 1) summed and divided in binary64 arithmetic, then rounded
half-even to two decimal places; exactly 1 when no variants are detected. -/
theorem C9_activity_rounding_amended (gene : String) (detected : List DetectedVariant) :
    (assign_phenotype gene detected).activity_score =
      (if detected = [] then 1
       else round2 (floatDiv
         ((detected.map (fun d => claim_activity_weight d.effect)).foldl floatAdd 0)
         (nearestFloat (detected.length : ℚ)))) := by
  simp only [assign_phenotype, List.isEmpty_eq_true]
  have hmap : detected.map (fun d => (activity_map.lookup d.effect).getD 1)
      = detected.map (fun d => claim_activity_weight d.effect) :=
    List.map_congr_left (fun d _ => activity_map_lookup_eq d.effect)
  rw [hmap]

/-- Claim C10: an input whose lines are all metadata, the column header or
blank has zero data lines, so parsing completes and returns success false
(the error count is not strictly below the zero total), total_records zero
and empty variant and error lists. -/
theorem C10_skip_only_input (content : String)
    (h : ∀ l ∈ pySplit '\n' (pyStrip content),
          pyStartsWith "##" (pyStrip l) = true ∨ pyStartsWith "#CHROM" (pyStrip l) = true
            ∨ pyStrip l = "") :
    (parse_vcf_content content).map (·.success) = some false
    ∧ (parse_vcf_content content).map (·.total_records) = some 0
    ∧ (parse_vcf_content content).map (·.variants) = some []
    ∧ (parse_vcf_content content).map (·.errors) = some [] := by
  have hd : ∀ l ∈ pySplit '\n' (pyStrip content), is_data_line l = false := by
    intro l hl
    rcases h l hl with h1 | h1 | h1 <;> simp [is_data_line, h1]
  obtain ⟨h1, h2, h3⟩ := parse_fold_stats (pySplit '\n' (pyStrip content)) ⟨[], [], [], 0⟩
  have c1 : (pySplit '\n' (pyStrip content)).countP is_data_line = 0 := by
    rw [List.countP_eq_zero]
    intro l hl
    simp [hd l hl]
  have c2 : (pySplit '\n' (pyStrip content)).countP
      (fun l => is_data_line l && !well_formed_line l) = 0 := by
    rw [List.countP_eq_zero]
    intro l hl
    simp [hd l hl]
  have c3 : (pySplit '\n' (pyStrip content)).countP
      (fun l => is_data_line l && well_formed_line l) = 0 := by
    rw [List.countP_eq_zero]
    intro l hl
    simp [hd l hl]
  rw [c1] at h1; rw [c2] at h2; rw [c3] at h3
  simp only [List.length_nil, Nat.add_zero, Nat.zero_add] at h1 h2 h3
  have hv : ((pySplit '\n' (pyStrip content)).foldl parse_line ⟨[], [], [], 0⟩).variants = [] :=
    List.length_eq_zero.mp h3
  have he : ((pySplit '\n' (pyStrip content)).foldl parse_line ⟨[], [], [], 0⟩).errors = [] :=
    List.length_eq_zero.mp h2
  simp only [parse_vcf_content]
  rw [hv, he, h1]
  simp [count_pgx_relevant]

/-- Claim C10, witness: the theorem applied to a concrete input holding two
metadata lines, a blank line and the column-header line. -/
theorem C10_skip_only_input_witness :
    (parse_vcf_content "##fileformat=VCFv4.2\n##source=test\n\n#CHROM\tPOS\tID").map (·.success)
        = some false
    ∧ (parse_vcf_content "##fileformat=VCFv4.2\n##source=test\n\n#CHROM\tPOS\tID").map (·.total_records)
        = some 0
    ∧ (parse_vcf_content "##fileformat=VCFv4.2\n##source=test\n\n#CHROM\tPOS\tID").map (·.variants)
        = some []
    ∧ (parse_vcf_content "##fileformat=VCFv4.2\n##source=test\n\n#CHROM\tPOS\tID").map (·.errors)
        = some [] :=
  C10_skip_only_input "##fileformat=VCFv4.2\n##source=test\n\n#CHROM\tPOS\tID" (by decide)
